import Mathlib

/-
  Verification development for the Shopify MCP server gateway layer
  (src/clients/shopify-graphql.ts and src/utils/error-handler.ts).
  Strings are modelled as Lean `String` (lists of characters); JavaScript
  regular-expression behaviour is modelled by explicit character scanning.
-/

/-! ## Generic list-of-characters helpers (model of JS string operations) -/

/-- Check whether the second character list starts with the first. -/
def leadsWith : List Char → List Char → Bool
  | [], _ => true
  | _ :: _, [] => false
  | c :: p, d :: l => c = d && leadsWith p l

/-- Drop the pattern `pat` from the front of `l`, when it is there. -/
def dropLead : List Char → List Char → Option (List Char)
  | [], l => some l
  | _ :: _, [] => none
  | c :: p, d :: l => if c = d then dropLead p l else none

/-- Substring containment on character lists (model of JS `includes`). -/
def hasSubL (needle : List Char) : List Char → Bool
  | [] => leadsWith needle []
  | c :: rest => leadsWith needle (c :: rest) || hasSubL needle rest

/-- Substring containment on strings. -/
def strHasSub (haystack needle : String) : Bool :=
  hasSubL needle.data haystack.data

/-- Replace the first occurrence of `pat` in the list with `rep`
(model of JS `String.prototype.replace` with a plain-string pattern). -/
def replFirstL (pat rep : List Char) : List Char → List Char
  | [] => if leadsWith pat [] then rep else []
  | c :: rest =>
      if leadsWith pat (c :: rest) then
        rep ++ (c :: rest).drop pat.length
      else
        c :: replFirstL pat rep rest

/-- ASCII upper-casing of a character list (model of JS `toUpperCase`
on the ASCII names used in this code base). -/
def upperL (l : List Char) : List Char := l.map Char.toUpper

/-! ## Identifier codec: `ShopifyGraphQLClient.toGid` / `fromGid` -/

/-- The opaque-identifier head `gid://shopify/` as characters. -/
def gidHead : List Char := "gid://shopify/".data

/-- JS `\w` character class (ASCII word character). -/
def isWordChar (c : Char) : Bool := c.isAlpha || c.isDigit || c = '_'

/-- Model of `toGid` on character lists: when the stringified id already
starts with `gid://shopify/` it is returned verbatim, otherwise the
opaque form is built from the type tag and the id. -/
def toGidL (type idStr : List Char) : List Char :=
  if leadsWith gidHead idStr then idStr
  else gidHead ++ type ++ '/' :: idStr

/-- Try the regular expression `gid:\/\/shopify\/\w+\/(\d+)` at the head of
the list; on success return the captured digit group. -/
def matchGidAt (l : List Char) : Option (List Char) :=
  match dropLead gidHead l with
  | none => none
  | some r1 =>
      let w := r1.takeWhile isWordChar
      let r2 := r1.dropWhile isWordChar
      if w.isEmpty then none
      else
        match r2 with
        | '/' :: r3 =>
            let d := r3.takeWhile Char.isDigit
            if d.isEmpty then none else some d
        | _ => none

/-- Leftmost match of the pattern anywhere in the list (JS `String.match`
with an unanchored regular expression). -/
def findGid : List Char → Option (List Char)
  | [] => matchGidAt []
  | c :: rest =>
      match matchGidAt (c :: rest) with
      | some d => some d
      | none => findGid rest

/-- Model of `fromGid` on character lists: the captured digits of the
first match, or the input unchanged when the pattern does not match. -/
def fromGidL (l : List Char) : List Char :=
  match findGid l with
  | some d => d
  | none => l

/-- Model of `ShopifyGraphQLClient.toGid`, taking the id already
stringified. -/
def toGid (type idStr : String) : String :=
  ⟨toGidL type.data idStr.data⟩

/-- Model of `ShopifyGraphQLClient.fromGid`. -/
def fromGid (gid : String) : String :=
  ⟨fromGidL gid.data⟩

/-! ## Error classifier: `ShopifyGraphQLClient.handleError` -/

/-- The four error kinds the classifier can produce for a thrown `Error`. -/
inductive ErrKind
  | rateLimit
  | authErr
  | notFound
  | apiError
  deriving DecidableEq, Repr

/-- Model of `handleError` restricted to the branch where the thrown
value is an `Error`: classify the message by ordered substring tests and
return the kind together with the message of the returned error object. -/
def handleError (msg : String) : ErrKind × String :=
  if strHasSub msg "Throttled" then
    (.rateLimit, "Rate limit exceeded. Please retry after a moment.")
  else if strHasSub msg "401" || strHasSub msg "Unauthorized" then
    (.authErr, "Invalid access token or authentication failed.")
  else if strHasSub msg "404" || strHasSub msg "not found" then
    (.notFound, msg)
  else
    (.apiError, msg)

/-! ## Handler-layer error conversion: `src/utils/error-handler.ts` -/

/-- Model of `ShopifyUserError` from the mutation payloads. -/
structure UserError where
  field : Option (List String)
  message : String
  code : Option String
  deriving DecidableEq, Repr

/-- Model of `ToolError`, the failure payload of code, message and
optional details. -/
structure ToolError where
  code : String
  message : String
  details : Option (List UserError)
  deriving DecidableEq, Repr

/-- Model of `ToolResult`, the uniform handler envelope with the data
field left abstract. -/
structure ToolResult where
  success : Bool
  error : Option ToolError
  deriving DecidableEq, Repr

/-- Model of `errorResult` without details. -/
def errorResult (code message : String) : ToolResult :=
  ⟨false, some ⟨code, message, none⟩⟩

/-- Model of `errorResult` carrying details. -/
def errorResultD (code message : String) (details : List UserError) : ToolResult :=
  ⟨false, some ⟨code, message, some details⟩⟩

/-- Model of `formatUserErrors`: join the field paths and messages and
wrap them as a `VALIDATION_ERROR` result. -/
def formatUserErrors (userErrors : List UserError) : ToolResult :=
  let messages := userErrors.map (fun e =>
    let field := match e.field with
      | some f => String.intercalate "." f
      | none => "unknown"
    field ++ ": " ++ e.message)
  errorResultD "VALIDATION_ERROR" (String.intercalate "; " messages) userErrors

/-- The handler code derivation: strip the first occurrence of the
substrings `Shopify` and then `Error` from the runtime class name,
upper-case the rest, and fall back to `API_ERROR` when the result is the
empty string (falsy). -/
def deriveCode (name : String) : String :=
  let c : List Char :=
    upperL (replFirstL "Error".data [] (replFirstL "Shopify".data [] name.data))
  if c.isEmpty then "API_ERROR" else ⟨c⟩

/-- A thrown JavaScript value as seen by `handleToolError`: one of the
five error classes of the client module (each carrying its runtime
`name`), a plain `Error`, or a non-`Error` value. -/
inductive ThrownValue
  | shopifyValidation (message : String) (userErrors : List UserError)
  | shopifyRateLimit (message : String)
  | shopifyAuth (message : String)
  | shopifyNotFound (message : String)
  | shopifyAPI (message : String)
  | plainError (message : String)
  | nonError
  deriving DecidableEq, Repr

/-- Model of `handleToolError`: convert any thrown value into a
`ToolResult`, never raising. The `instanceof ShopifyAPIError` branch
derives its code from the runtime class name set by the matching
constructor. -/
def handleToolError : ThrownValue → ToolResult
  | .shopifyValidation _ userErrors => formatUserErrors userErrors
  | .shopifyRateLimit message => errorResult (deriveCode "ShopifyRateLimitError") message
  | .shopifyAuth message => errorResult (deriveCode "ShopifyAuthenticationError") message
  | .shopifyNotFound message => errorResult (deriveCode "ShopifyNotFoundError") message
  | .shopifyAPI message => errorResult (deriveCode "ShopifyAPIError") message
  | .plainError message => errorResult "UNKNOWN_ERROR" message
  | .nonError => errorResult "UNKNOWN_ERROR" "An unexpected error occurred"

/-- Model of `withErrorHandling`: wrap a handler so that a thrown value
is routed through `handleToolError` and a normal result is returned
unchanged. -/
def withErrorHandling {α : Type} (handler : α → Except ThrownValue ToolResult)
    (a : α) : ToolResult :=
  match handler a with
  | .ok r => r
  | .error e => handleToolError e

/-! ## Mutation-result normalization: `ShopifyGraphQLClient.mutate` -/

/-- A successful mutation response object: top-level keys in insertion
order, each keyed sub-object modelled by its optional `userErrors` array
(`none` = the sub-object carries no `userErrors` array). -/
def MutationPayload : Type := List (String × Option (List UserError))

instance : DecidableEq MutationPayload := by
  unfold MutationPayload
  infer_instance

/-- The normalized mutation envelope `{ success, data, userErrors }`. -/
structure MutationResult where
  success : Bool
  data : Option MutationPayload
  userErrors : List UserError

instance : DecidableEq MutationResult := by
  exact fun a b => decidable_of_iff
    (a.success = b.success ∧ a.data = b.data ∧ a.userErrors = b.userErrors)
    (by cases a; cases b; simp)

/-- JS or-else on an optional string: `undefined` and the empty string
are falsy. -/
def jsOrKey (a : Option String) (b : Option String) : Option String :=
  match a with
  | some s => if s = "" then b else some s
  | none => b

/-- The first top-level key of the response object, when any. -/
def firstKey (resp : MutationPayload) : Option String :=
  resp.head?.map Prod.fst

/-- The result key `mutationName || Object.keys(response)[0]`. -/
def mutKey (resp : MutationPayload) (mutationName : Option String) : Option String :=
  jsOrKey mutationName (firstKey resp)

/-- The `userErrors` array found under the result key, when the key
exists, the property is present and it carries a `userErrors` array. -/
def extractUserErrors (resp : MutationPayload) (mutationName : Option String) :
    Option (List UserError) :=
  ((mutKey resp mutationName).bind (fun k => resp.lookup k)).bind id

/-- Model of `mutate` on an already-successful transport response:
normalize the business-error array into the success, data and userErrors
envelope. -/
def mutate (resp : MutationPayload) (mutationName : Option String) : MutationResult :=
  match extractUserErrors resp mutationName with
  | some ue => if 0 < ue.length then ⟨false, none, ue⟩ else ⟨true, some resp, []⟩
  | none => ⟨true, some resp, []⟩

/-! ## Pagination accumulator: `ShopifyGraphQLClient.queryAll` -/

/-- Cursor page metadata as the extractor returns it. -/
structure PageInfo where
  hasNextPage : Bool
  endCursor : Option String
  deriving DecidableEq, Repr

/-- One extracted page: the nodes and the page metadata. -/
structure Page (N : Type) where
  nodes : List N
  pageInfo : PageInfo

/-- The loop state at exit: the accumulated nodes, the final values of the
`hasNextPage` and `cursor` loop variables, and whether the safety break
fired (the `console.warn` path). -/
structure QueryAllResult (N : Type) where
  allNodes : List N
  hasNextPage : Bool
  cursor : Option String
  warned : Bool

instance {N : Type} [DecidableEq N] : DecidableEq (QueryAllResult N) := by
  exact fun a b => decidable_of_iff
    (a.allNodes = b.allNodes ∧ a.hasNextPage = b.hasNextPage ∧
      a.cursor = b.cursor ∧ a.warned = b.warned)
    (by cases a; cases b; simp)

/-- One `while` pass after another of the `queryAll` loop, against a page
source mapping the request index and the current cursor to the extracted
page. `fuel` bounds the number of passes we are willing to run; `none`
means the loop was still running when the fuel ran out. -/
def queryAllGo {N : Type} (pages : Nat → Option String → Page N) :
    Nat → List N → Option String → Nat → Option (QueryAllResult N)
  | 0, _, _, _ => none
  | fuel + 1, acc, cursor, i =>
      let p := pages i cursor
      let acc := acc ++ p.nodes
      let hasNext := p.pageInfo.hasNextPage
      let cursor := p.pageInfo.endCursor
      if 10000 < acc.length then some ⟨acc, hasNext, cursor, true⟩
      else if hasNext then queryAllGo pages fuel acc cursor (i + 1)
      else some ⟨acc, false, cursor, false⟩

/-- Model of `queryAll`: run the loop from an empty accumulator and a
null cursor; the hasNextPage variable starts true, so the body always
runs at least once. -/
def queryAll {N : Type} (pages : Nat → Option String → Page N) (fuel : Nat) :
    Option (QueryAllResult N) :=
  queryAllGo pages fuel [] none 0

/-! ## Configuration and endpoint: constructor and `buildEndpoint` -/

/-- The fixed fallback API version. -/
def DEFAULT_API_VERSION : String := "2025-01"

/-- The resolved `ShopifyConfig`. -/
structure ShopifyConfig where
  storeUrl : String
  accessToken : String
  apiVersion : String
  deriving DecidableEq, Repr

/-- The `Partial<ShopifyConfig>` argument of the constructor. -/
structure PartialConfig where
  storeUrl : Option String
  accessToken : Option String
  apiVersion : Option String

/-- The three environment variables the constructor reads. -/
structure EnvVars where
  SHOPIFY_STORE_URL : Option String
  SHOPIFY_ACCESS_TOKEN : Option String
  SHOPIFY_API_VERSION : Option String

/-- JS or-else on strings where the left side may be `undefined`; the
empty string is falsy. -/
def jsOrStr (a : Option String) (b : String) : String :=
  match a with
  | some s => if s = "" then b else s
  | none => b

/-- Config resolution in the constructor: explicit override, then
environment variable, then default (the empty string for URL and
token). -/
def resolveConfig (config : PartialConfig) (env : EnvVars) : ShopifyConfig where
  storeUrl := jsOrStr config.storeUrl (jsOrStr env.SHOPIFY_STORE_URL "")
  accessToken := jsOrStr config.accessToken (jsOrStr env.SHOPIFY_ACCESS_TOKEN "")
  apiVersion := jsOrStr config.apiVersion
    (jsOrStr env.SHOPIFY_API_VERSION DEFAULT_API_VERSION)

/-- Model of the constructor regex replacement that strips one leading
`http://` or `https://` scheme. -/
def stripSchemeL (l : List Char) : List Char :=
  match dropLead "https://".data l with
  | some r => r
  | none =>
      match dropLead "http://".data l with
      | some r => r
      | none => l

/-- Model of the regex replacement that strips one trailing slash. -/
def stripTrailSlashL (l : List Char) : List Char :=
  match l.getLast? with
  | some c => if c = '/' then l.dropLast else l
  | none => l

/-- Model of `buildEndpoint`: normalize the store URL and interpolate it
and the API version into the Admin API URL. -/
def buildEndpoint (storeUrl apiVersion : String) : String :=
  "https://" ++ (⟨stripTrailSlashL (stripSchemeL storeUrl.data)⟩ : String) ++
    "/admin/api/" ++ apiVersion ++ "/graphql.json"

/-- The constructor: resolve the config, run `validateConfig` (a thrown
`Error` is modelled as `Except.error` with its message), then compute the
endpoint the transport is bound to. -/
def mkClient (config : PartialConfig) (env : EnvVars) :
    Except String (ShopifyConfig × String) :=
  let c := resolveConfig config env
  if c.storeUrl = "" then
    .error "SHOPIFY_STORE_URL is required. Set it as an environment variable or pass it in the config."
  else if c.accessToken = "" then
    .error "SHOPIFY_ACCESS_TOKEN is required. Set it as an environment variable or pass it in the config."
  else
    .ok (c, buildEndpoint c.storeUrl c.apiVersion)

/-! ## Mock page sources used by the pagination scenarios -/

/-- A source that always reports `hasNextPage: true` and returns one item
per page. -/
def pagesOne : Nat → Option String → Page Unit :=
  fun _ _ => ⟨[()], ⟨true, some "c"⟩⟩

/-- A source whose every page reports `hasNextPage: true` with a null
`endCursor` and contributes zero items. -/
def pagesNullCursor : Nat → Option String → Page Unit :=
  fun _ _ => ⟨[], ⟨true, none⟩⟩

/-- A source whose first page reports `hasNextPage: true` with a null
`endCursor`, followed by a final page with one more item. -/
def pagesAnomaly : Nat → Option String → Page String :=
  fun i _ => if i = 0 then ⟨["a"], ⟨true, none⟩⟩ else ⟨["b"], ⟨false, some "e"⟩⟩

/-- Three pages of sizes 2, 2, 1 with `hasNextPage` true, true, false;
the node values are deliberately in globally descending order so that a
re-sorting accumulator would be caught. -/
def pagesThree : Nat → Option String → Page Nat :=
  fun i _ =>
    match i with
    | 0 => ⟨[5, 4], ⟨true, some "c1"⟩⟩
    | 1 => ⟨[3, 2], ⟨true, some "c2"⟩⟩
    | _ => ⟨[1], ⟨false, some "c3"⟩⟩

/-- Claim C8: on three pages of sizes 2, 2, 1 with `hasNextPage`
true, true, false, `queryAll` returns the five items concatenated in page
encounter order (no re-sorting), and the loop exits carrying
`hasNextPage = false` from the final page and without the safety
warning. -/
theorem C8_three_pages_in_order :
    queryAll pagesThree 10 = some ⟨[5, 4, 3, 2, 1], false, some "c3", false⟩ := by
  decide

/-- Claim C5: the classifier maps a thrown `Error` by ordered substring
tests on its message: `Throttled` gives the rate-limit kind; else `401` or
`Unauthorized` gives the authentication kind; else `404` or `not found`
gives the not-found kind; anything else gives the generic API-error
kind. -/
theorem C5_classifier_order (msg : String) :
    (strHasSub msg "Throttled" = true → (handleError msg).1 = .rateLimit) ∧
    (strHasSub msg "Throttled" = false →
      strHasSub msg "401" = true ∨ strHasSub msg "Unauthorized" = true →
      (handleError msg).1 = .authErr) ∧
    (strHasSub msg "Throttled" = false → strHasSub msg "401" = false →
      strHasSub msg "Unauthorized" = false →
      strHasSub msg "404" = true ∨ strHasSub msg "not found" = true →
      (handleError msg).1 = .notFound) ∧
    (strHasSub msg "Throttled" = false → strHasSub msg "401" = false →
      strHasSub msg "Unauthorized" = false → strHasSub msg "404" = false →
      strHasSub msg "not found" = false →
      (handleError msg).1 = .apiError) := by
  unfold handleError
  refine ⟨?_, ?_, ?_, ?_⟩
  · intro h; simp [h]
  · intro h1 h2; rcases h2 with h2 | h2 <;> simp [h1, h2]
  · intro h1 h2 h3 h4; rcases h4 with h4 | h4 <;> simp [h1, h2, h3, h4]
  · intro h1 h2 h3 h4 h5; simp [h1, h2, h3, h4, h5]

theorem C5_classifier_order_witness :
    (handleError "Throttled by API").1 = .rateLimit ∧
    (handleError "Request failed 401").1 = .authErr ∧
    (handleError "resource not found").1 = .notFound ∧
    (handleError "boom").1 = .apiError :=
  ⟨(C5_classifier_order "Throttled by API").1 (by decide),
   (C5_classifier_order "Request failed 401").2.1 (by decide) (Or.inl (by decide)),
   (C5_classifier_order "resource not found").2.2.1 (by decide) (by decide) (by decide)
     (Or.inr (by decide)),
   (C5_classifier_order "boom").2.2.2 (by decide) (by decide) (by decide) (by decide)
     (by decide)⟩

/-- Claim C7: the codec degrades malformed input to identity without
raising: `toGid` returns an already-opaque identifier verbatim for every
type tag, and `fromGid` returns any string the pattern does not match
unchanged. -/
theorem C7_codec_identity_fallback :
    (∀ t g : String, leadsWith gidHead g.data = true → toGid t g = g) ∧
    (∀ g : String, findGid g.data = none → fromGid g = g) := by
  constructor
  · intro t g h
    unfold toGid toGidL
    simp [h]
  · intro g h
    unfold fromGid fromGidL
    simp [h]

theorem C7_codec_identity_fallback_witness :
    toGid "Customer" "gid://shopify/Order/77" = "gid://shopify/Order/77" ∧
    fromGid "plain-id" = "plain-id" :=
  ⟨C7_codec_identity_fallback.1 "Customer" "gid://shopify/Order/77" (by decide),
   C7_codec_identity_fallback.2 "plain-id" (by decide)⟩

/-- Claim C1: `mutate` normalizes every mutation response: when the
`userErrors` array under the result key (the supplied name, or else the
first top-level key) is non-empty it returns
`{ success: false, data: null, userErrors }` as a normal value, and
otherwise `{ success: true, data: <entire response>, userErrors: [] }`. -/
theorem C1_mutate_normalizes (resp : MutationPayload) (mname : Option String) :
    (∀ ue, extractUserErrors resp mname = some ue → ue ≠ [] →
      mutate resp mname = ⟨false, none, ue⟩) ∧
    (∀ ue, extractUserErrors resp mname = some ue → ue = [] →
      mutate resp mname = ⟨true, some resp, []⟩) ∧
    (extractUserErrors resp mname = none →
      mutate resp mname = ⟨true, some resp, []⟩) := by
  refine ⟨?_, ?_, ?_⟩
  · intro ue h hne
    unfold mutate
    rw [h]
    simp [List.length_pos.mpr hne]
  · intro ue h he
    unfold mutate
    rw [h, he]
    simp
  · intro h
    unfold mutate
    rw [h]

theorem C1_mutate_normalizes_witness :
    mutate [("productCreate", some [⟨none, "bad title", none⟩])] none =
      ⟨false, none, [⟨none, "bad title", none⟩]⟩ ∧
    mutate [("productCreate", some [])] none =
      ⟨true, some [("productCreate", some [])], []⟩ :=
  ⟨(C1_mutate_normalizes [("productCreate", some [⟨none, "bad title", none⟩])] none).1
      [⟨none, "bad title", none⟩] (by decide) (by decide),
   (C1_mutate_normalizes [("productCreate", some [])] none).2.1 [] (by decide) rfl⟩

/-- Claim C10: when the result key is absent, the response object is
empty, or the keyed sub-object lacks a `userErrors` array, `mutate` does
not fail during extraction and returns
`{ success: true, data: <entire response>, userErrors: [] }`. -/
theorem C10_mutate_degenerate_success (resp : MutationPayload) (mname : Option String) :
    mutKey resp mname = none ∨
      (∃ k, mutKey resp mname = some k ∧
        (resp.lookup k = none ∨ resp.lookup k = some none)) →
    mutate resp mname = ⟨true, some resp, []⟩ := by
  intro h
  have hex : extractUserErrors resp mname = none := by
    unfold extractUserErrors
    rcases h with h | ⟨k, hk, hl | hl⟩
    · rw [h]; rfl
    · rw [hk]; simp [hl]
    · rw [hk]; simp [hl]
  unfold mutate
  rw [hex]

theorem C10_mutate_degenerate_success_witness :
    mutate [] none = ⟨true, some [], []⟩ ∧
    mutate [("productCreate", none)] none =
      ⟨true, some [("productCreate", none)], []⟩ :=
  ⟨C10_mutate_degenerate_success [] none (Or.inl (by decide)),
   C10_mutate_degenerate_success [("productCreate", none)] none
     (Or.inr ⟨"productCreate", by decide, Or.inr (by decide)⟩)⟩

/-- Claim C6 counterexample: `handleToolError` on a thrown
`ShopifyNotFoundError` yields the code `"NOTFOUND"` (derived from the
runtime class name), which is not among the five codes the claim lists. -/
theorem C6_code_set_counterexample :
    handleToolError (.shopifyNotFound "shop missing") =
      ⟨false, some ⟨"NOTFOUND", "shop missing", none⟩⟩ ∧
    "NOTFOUND" ∉
      (["NOT_FOUND", "INVALID_INPUT", "API_ERROR", "VALIDATION_ERROR",
        "UNKNOWN_ERROR"] : List String) := by
  constructor
  · decide
  · decide

/-- Claim C6 (amended): `handleToolError` converts every thrown value,
without raising, into `{ success: false, error: { code, message,
details? } }` whose code lies in `{VALIDATION_ERROR, API, RATELIMIT,
AUTHENTICATION, NOTFOUND, UNKNOWN_ERROR}` (the name-derived codes), and a
handler wrapped with `withErrorHandling` either returns its own result or
that converted envelope — an exception never escapes. -/
theorem C6_amended_envelope :
    (∀ e : ThrownValue, (handleToolError e).success = false ∧
      ∃ te, (handleToolError e).error = some te ∧
        te.code ∈ (["VALIDATION_ERROR", "API", "RATELIMIT", "AUTHENTICATION",
          "NOTFOUND", "UNKNOWN_ERROR"] : List String)) ∧
    (∀ (α : Type) (handler : α → Except ThrownValue ToolResult) (a : α),
      (∃ r, handler a = .ok r ∧ withErrorHandling handler a = r) ∨
      (∃ e, handler a = .error e ∧
        withErrorHandling handler a = handleToolError e)) := by
  constructor
  · intro e
    cases e <;>
      simp [handleToolError, formatUserErrors, errorResult, errorResultD] <;>
      decide
  · intro α handler a
    cases ha : handler a with
    | ok r => exact Or.inl ⟨r, rfl, by simp [withErrorHandling, ha]⟩
    | error e => exact Or.inr ⟨e, rfl, by simp [withErrorHandling, ha]⟩

/-- Claim C9: a client built from `storeUrl = "shop.myshopify.com"`,
`accessToken = "tok"` with no version override and no environment
variables computes the endpoint
`https://shop.myshopify.com/admin/api/2025-01/graphql.json`; in general
the endpoint interpolates the store URL with one leading `http://` or
`https://` scheme and one trailing slash stripped. -/
theorem C9_endpoint_computation :
    mkClient ⟨some "shop.myshopify.com", some "tok", none⟩ ⟨none, none, none⟩ =
      .ok (⟨"shop.myshopify.com", "tok", "2025-01"⟩,
        "https://shop.myshopify.com/admin/api/2025-01/graphql.json") ∧
    (∀ u v : String, buildEndpoint u v =
      "https://" ++ (⟨stripTrailSlashL (stripSchemeL u.data)⟩ : String) ++
        "/admin/api/" ++ v ++ "/graphql.json") ∧
    (∀ l : List Char, stripSchemeL ("https://".data ++ l) = l) ∧
    (∀ l : List Char, stripSchemeL ("http://".data ++ l) = l) ∧
    (∀ l : List Char, stripTrailSlashL (l ++ ['/']) = l) := by
  refine ⟨by rfl, fun u v => rfl, fun l => rfl, fun l => rfl, fun l => ?_⟩
  unfold stripTrailSlashL
  rw [List.getLast?_concat]
  simp

theorem queryAllGo_one_fills (n : Nat) :
    ∀ (acc : List Unit) (cursor : Option String) (i fuel : Nat),
      acc.length ≤ 10000 → acc.length + n = 10001 → n ≤ fuel →
      queryAllGo pagesOne fuel acc cursor i =
        some ⟨acc ++ List.replicate n (), true, some "c", true⟩ := by
  induction n with
  | zero =>
    intro acc cursor i fuel h1 h2 h3
    omega
  | succ n ih =>
    intro acc cursor i fuel h1 h2 h3
    obtain ⟨f, rfl⟩ : ∃ f, fuel = f + 1 := ⟨fuel - 1, by omega⟩
    simp only [queryAllGo, pagesOne]
    by_cases hc : 10000 < (acc ++ [()]).length
    · have hn : n = 0 := by simp at hc; omega
      subst hn
      rw [if_pos hc]
      simp
    · rw [if_neg hc]
      simp only [if_true]
      have := ih (acc ++ [()]) (some "c") (i + 1) f
        (by simp at hc ⊢; omega) (by simp at h2 ⊢; omega) (by omega)
      rw [this]
      simp [List.replicate_succ, List.append_assoc]

theorem queryAllGo_null_forever :
    ∀ (fuel : Nat) (cursor : Option String) (i : Nat),
      queryAllGo pagesNullCursor fuel [] cursor i = none := by
  intro fuel
  induction fuel with
  | zero => intro cursor i; rfl
  | succ f ih =>
    intro cursor i
    simp only [queryAllGo, pagesNullCursor]
    simpa using ih none (i + 1)

/-- Claim C2 counterexample: on the always-`hasNextPage`, one-item-per-page
source, `queryAll` accumulates 10,001 items, not 10,000: the ceiling check
`allNodes.length > 10000` runs after appending, so the loop stops at the
first count strictly exceeding 10,000. -/
theorem C2_ceiling_counterexample :
    (queryAll pagesOne 10001).map (fun r => r.allNodes.length) = some 10001 ∧
    (10001 : Nat) ≠ 10000 := by
  constructor
  · rw [queryAll, queryAllGo_one_fills 10001 [] none 0 10001 (by simp) (by simp) le_rfl]
    simp only [List.nil_append, Option.map_some', List.length_replicate]
  · decide

/-- Claim C2 (amended): on a source that always reports
`hasNextPage: true` and yields one item per page, `queryAll` terminates at
the safety ceiling and returns exactly 10,001 items (the first count
strictly exceeding the 10,000 ceiling); the stop is the non-fatal warning
path and the partial result is still returned. -/
theorem C2_amended_safety_ceiling :
    queryAll pagesOne 10001 =
      some ⟨List.replicate 10001 (), true, some "c", true⟩ ∧
    (List.replicate 10001 ()).length = 10001 := by
  constructor
  · rw [queryAll, queryAllGo_one_fills 10001 [] none 0 10001 (by simp) (by simp) le_rfl]
    simp only [List.nil_append]
  · simp only [List.length_replicate]

/-- Claim C3: `queryAll` does not treat `hasNextPage: true` with a null
`endCursor` as terminal. On zero-item pages of that shape the loop never
exits for any amount of fuel (the safety ceiling never trips), and when a
later page exists the accumulator keeps going past the anomalous page
instead of stopping there. -/
theorem C3_null_cursor_not_terminal :
    (∀ fuel, queryAll pagesNullCursor fuel = none) ∧
    queryAll pagesAnomaly 5 = some ⟨["a", "b"], false, some "e", false⟩ ∧
    (["a", "b"] : List String) ≠ ["a"] := by
  refine ⟨fun fuel => ?_, by decide, by decide⟩
  rw [queryAll]
  exact queryAllGo_null_forever fuel none 0

theorem dropLead_self_append (p l : List Char) : dropLead p (p ++ l) = some l := by
  induction p with
  | nil => rfl
  | cons c p ih => simp [dropLead, ih]

theorem takeWhile_all_stop {p : Char → Bool} :
    ∀ (t : List Char), (∀ c ∈ t, p c = true) → ∀ {y : Char}, p y = false →
      ∀ z : List Char, (t ++ y :: z).takeWhile p = t := by
  intro t
  induction t with
  | nil =>
    intro _ y hy z
    simp [List.takeWhile_cons, hy]
  | cons c t ih =>
    intro ht y hy z
    have hc : p c = true := ht c (by simp)
    simp only [List.cons_append, List.takeWhile_cons, hc, if_true]
    rw [ih (fun d hd => ht d (by simp [hd])) hy z]

theorem dropWhile_all_stop {p : Char → Bool} :
    ∀ (t : List Char), (∀ c ∈ t, p c = true) → ∀ {y : Char}, p y = false →
      ∀ z : List Char, (t ++ y :: z).dropWhile p = y :: z := by
  intro t
  induction t with
  | nil =>
    intro _ y hy z
    simp [List.dropWhile_cons, hy]
  | cons c t ih =>
    intro ht y hy z
    have hc : p c = true := ht c (by simp)
    simp only [List.cons_append, List.dropWhile_cons, hc, if_true]
    rw [ih (fun d hd => ht d (by simp [hd])) hy z]

theorem takeWhile_all (p : Char → Bool) :
    ∀ (l : List Char), (∀ c ∈ l, p c = true) → l.takeWhile p = l := by
  intro l
  induction l with
  | nil => intro _; rfl
  | cons c l ih =>
    intro hl
    have hc : p c = true := hl c (by simp)
    simp only [List.takeWhile_cons, hc, if_true]
    rw [ih (fun d hd => hl d (by simp [hd]))]

theorem matchGidAt_build (t s : List Char) (ht : t ≠ [])
    (htw : ∀ c ∈ t, isWordChar c = true)
    (hs : s ≠ []) (hsd : ∀ c ∈ s, c.isDigit = true) :
    matchGidAt (gidHead ++ (t ++ '/' :: s)) = some s := by
  unfold matchGidAt
  rw [dropLead_self_append]
  have hw : (t ++ '/' :: s).takeWhile isWordChar = t :=
    takeWhile_all_stop t htw (by decide) s
  have hr : (t ++ '/' :: s).dropWhile isWordChar = '/' :: s :=
    dropWhile_all_stop t htw (by decide) s
  simp only [hw, hr]
  rw [if_neg (by simpa [List.isEmpty_iff] using ht)]
  rw [takeWhile_all Char.isDigit s hsd]
  rw [if_neg (by simpa [List.isEmpty_iff] using hs)]

theorem findGid_build (t s : List Char) (ht : t ≠ [])
    (htw : ∀ c ∈ t, isWordChar c = true)
    (hs : s ≠ []) (hsd : ∀ c ∈ s, c.isDigit = true) :
    findGid (gidHead ++ (t ++ '/' :: s)) = some s := by
  have h := matchGidAt_build t s ht htw hs hsd
  have e : gidHead ++ (t ++ '/' :: s) =
      'g' :: ("id://shopify/".data ++ (t ++ '/' :: s)) := rfl
  rw [e] at h ⊢
  simp only [findGid, h]

/-- Claim C4 counterexample: for the short string identifier `"abc"` the
round-trip fails: `fromGid (toGid "Product" "abc")` is the full opaque
string, not `"abc"`, because `fromGid` only extracts a digit group. -/
theorem C4_roundtrip_counterexample :
    fromGid (toGid "Product" "abc") = "gid://shopify/Product/abc" ∧
    "gid://shopify/Product/abc" ≠ "abc" := by
  constructor
  · decide
  · decide

/-- Claim C4 (amended): for every short identifier whose stringified form
is a non-empty string of decimal digits (every non-negative integer id)
and every non-empty type tag made of word characters,
`fromGid (toGid t s)` returns the stringified identifier unchanged. -/
theorem C4_amended_roundtrip (t s : String)
    (ht : t.data ≠ []) (htw : ∀ c ∈ t.data, isWordChar c = true)
    (hs : s.data ≠ []) (hsd : ∀ c ∈ s.data, c.isDigit = true) :
    fromGid (toGid t s) = s := by
  have hlead : leadsWith gidHead s.data = false := by
    cases hsdata : s.data with
    | nil => exact absurd hsdata hs
    | cons c rest =>
      have hc : c.isDigit = true := hsd c (by rw [hsdata]; simp)
      by_cases hgc : 'g' = c
      · rw [← hgc] at hc
        exact absurd hc (by decide)
      · show leadsWith ('g' :: "id://shopify/".data) (c :: rest) = false
        simp [leadsWith, hgc]
  have htg : toGid t s = ⟨gidHead ++ (t.data ++ '/' :: s.data)⟩ := by
    unfold toGid toGidL
    rw [hlead]
    simp [List.append_assoc]
  rw [htg]
  show (⟨fromGidL (gidHead ++ (t.data ++ '/' :: s.data))⟩ : String) = s
  unfold fromGidL
  rw [findGid_build t.data s.data ht htw hs hsd]

theorem C4_amended_roundtrip_witness :
    fromGid (toGid "Product" "123") = "123" :=
  C4_amended_roundtrip "Product" "123" (by decide) (by decide) (by decide) (by decide)
